import Mathlib

/-!
# Dynamic flight assignment: verification of the weekly cargo-operations model

Shallow embedding of `src/solver.py` (the ILP model build, objective and
metrics) and `src/experiments.py` (the scenario harness).  Decision variables
are modelled as nonnegative-integer-valued functions (Gurobi `INTEGER`
variables carry a default lower bound of 0), constraints as explicit pairs of
linear-expression evaluators over an assignment, and the model build as the
list of constraints produced by the same loops as the source.
-/

namespace CargoOps

/-- `AIRPORTS = ['A', 'B', 'C']` — the three network nodes. -/
inductive Airport : Type
  | A
  | B
  | C
  deriving DecidableEq, Fintype, Repr

/-- The iteration list `AIRPORTS` of `solver.py`. -/
def AIRPORTS : List Airport := [Airport.A, Airport.B, Airport.C]

/-- `T = len(DAYS) = 5`; days are indices `0..4` (`Mon..Fri`). -/
def T : ℕ := 5

/-- `DEMAND`: route → per-day new demand, exactly the table of `solver.py`. -/
def DEMAND : List ((Airport × Airport) × (Fin 5 → ℤ)) :=
  [((Airport.A, Airport.B), ![100, 200, 100, 400, 300]),
   ((Airport.A, Airport.C), ![50, 50, 50, 50, 50]),
   ((Airport.B, Airport.A), ![25, 25, 25, 25, 25]),
   ((Airport.B, Airport.C), ![25, 25, 25, 25, 25]),
   ((Airport.C, Airport.A), ![40, 40, 40, 40, 40]),
   ((Airport.C, Airport.B), ![400, 200, 300, 200, 400])]

/-- A demand table: an association list route → per-day demand, as the
Python `dict` (keys in insertion order, values length-`T` sequences). -/
abbrev Dem := List ((Airport × Airport) × (Fin 5 → ℤ))

/-- `ROUTES = [(i, j) for i in AIRPORTS for j in AIRPORTS if i != j]`. -/
def ROUTES : List (Airport × Airport) :=
  AIRPORTS.flatMap fun i => (AIRPORTS.filter fun j => i ≠ j).map fun j => (i, j)

/-- `COST_REPO`: empty-repositioning unit cost per route.  The Python dict has
exactly the six off-diagonal keys; diagonal pairs are never looked up (the
build iterates over `ROUTES`), so their value here is irrelevant. -/
def COST_REPO : Airport × Airport → ℤ
  | (Airport.A, Airport.B) => 7
  | (Airport.B, Airport.A) => 7
  | (Airport.A, Airport.C) => 3
  | (Airport.C, Airport.A) => 3
  | (Airport.B, Airport.C) => 6
  | (Airport.C, Airport.B) => 6
  | _ => 0

/-- `COST_HOLD = 10` — holding cost per unit of backlog per day. -/
def COST_HOLD : ℤ := 10

/-- `FLEET_SIZE = 1200` — the default fleet size. -/
def FLEET_SIZE : ℤ := 1200

/-- An assignment of values to the decision variables.  All four variable
families are Gurobi `INTEGER` variables with default lower bound 0, hence
`ℕ`-valued here.  `x`/`y` are only ever read at route pairs (`i ≠ j`) and `H`
only at demand-route keys; the functions are total for convenience. -/
structure Asg where
  x : Airport × Airport → Fin 5 → ℕ
  y : Airport × Airport → Fin 5 → ℕ
  I : Airport → Fin 5 → ℕ
  H : Airport × Airport → Fin 5 → ℕ

/-- A linear equality constraint `lhs == rhs`, kept as the two expression
evaluators the builder would hand to the backend. -/
structure LinCons where
  lhs : Asg → ℤ
  rhs : Asg → ℤ

/-- An assignment satisfies a constraint when both sides evaluate equal. -/
def satisfies (a : Asg) (c : LinCons) : Prop :=
  c.lhs a = c.rhs a

instance (a : Asg) (c : LinCons) : Decidable (satisfies a c) :=
  inferInstanceAs (Decidable (c.lhs a = c.rhs a))

/-- `prev(t) = (t - 1) % T` — the cyclically previous day (Python's `%` is
nonnegative, so `(t - 1) % 5 = (t + 4) % 5`). -/
def prev (t : Fin 5) : Fin 5 :=
  ⟨(t.val + 4) % 5, Nat.mod_lt _ (by omega)⟩

/-- Constraint family 1 (`FlowBal_Air`): for each airport `i` and day `t`,
inbound (loaded + empty, departed on the previous day) plus previous ground
inventory equals outbound (loaded + empty) plus current ground inventory. -/
def airCons : List LinCons :=
  AIRPORTS.flatMap fun i =>
    (List.finRange 5).map fun t =>
      { lhs := fun a =>
          ((AIRPORTS.filter fun j => j ≠ i).map
            (fun j => (a.x (j, i) (prev t) : ℤ) + (a.y (j, i) (prev t) : ℤ))).sum
          + (a.I i (prev t) : ℤ)
        rhs := fun a =>
          ((AIRPORTS.filter fun j => j ≠ i).map
            (fun j => (a.x (i, j) t : ℤ) + (a.y (i, j) t : ℤ))).sum
          + (a.I i t : ℤ) }

/-- Constraint family 2 (`FlowBal_Cargo`): for each demand route `(i, j)` with
daily demands `d` and each day `t`, backlog of the previous day plus new
demand equals shipped (`x[i,j,t]`) plus current backlog. -/
def cargoCons (dem : Dem) : List LinCons :=
  dem.flatMap fun rd =>
    (List.finRange 5).map fun t =>
      { lhs := fun a => (a.H rd.1 (prev t) : ℤ) + rd.2 t
        rhs := fun a => (a.x rd.1 t : ℤ) + (a.H rd.1 t : ℤ) }

/-- Constraint family 3 (`FleetSize`): for each day `t`, aircraft in the air
(over all routes) plus aircraft on the ground (over all airports) equals the
fleet size. -/
def fleetCons (fleet : ℤ) : List LinCons :=
  (List.finRange 5).map fun t =>
    { lhs := fun a =>
        (ROUTES.map fun r => (a.x r t : ℤ) + (a.y r t : ℤ)).sum
        + (AIRPORTS.map fun i => (a.I i t : ℤ)).sum
      rhs := fun _ => fleet }

/-- The full constraint list the builder registers with the backend. -/
def buildModel (dem : Dem) (fleet : ℤ) : List LinCons :=
  airCons ++ cargoCons dem ++ fleetCons fleet

/-- `obj_repo = quicksum(COST_REPO[i,j] * y[i,j,t] ...)`. -/
def obj_repo (a : Asg) : ℤ :=
  (ROUTES.map fun r =>
    ((List.finRange 5).map fun t => COST_REPO r * (a.y r t : ℤ)).sum).sum

/-- `obj_hold = quicksum(COST_HOLD * H[i,j,t] ...)` over the demand routes. -/
def obj_hold (dem : Dem) (a : Asg) : ℤ :=
  (dem.map fun rd =>
    ((List.finRange 5).map fun t => COST_HOLD * (a.H rd.1 t : ℤ)).sum).sum

/-- The minimized objective: `obj_repo + obj_hold`. -/
def objective (dem : Dem) (a : Asg) : ℤ :=
  obj_repo a + obj_hold dem a

/-- An assignment is feasible for a scenario when it satisfies every
constraint the builder produced. -/
def feasible (dem : Dem) (fleet : ℤ) (a : Asg) : Prop :=
  ∀ c ∈ buildModel dem fleet, satisfies a c

instance (dem : Dem) (fleet : ℤ) (a : Asg) : Decidable (feasible dem fleet a) :=
  inferInstanceAs (Decidable (∀ c ∈ buildModel dem fleet, satisfies a c))

/-- The all-zero assignment (used as a concrete evaluation point). -/
def zeroAsg : Asg :=
  { x := fun _ _ => 0, y := fun _ _ => 0, I := fun _ _ => 0, H := fun _ _ => 0 }

/-- The route set as a finset: all ordered pairs of distinct airports. -/
def routesFinset : Finset (Airport × Airport) :=
  Finset.univ.filter fun p => p.1 ≠ p.2

/-- `total_shipped = sum(x[i,j,t].X for i,j in ROUTES for t in range(T))`. -/
def total_shipped (a : Asg) : ℤ :=
  (ROUTES.map fun r => ((List.finRange 5).map fun t => (a.x r t : ℤ)).sum).sum

/-- `total_demand = sum(sum(d) for d in DEMAND.values())`. -/
def total_demand : ℤ :=
  (DEMAND.map fun rd => ((List.finRange 5).map fun t => rd.2 t).sum).sum

/-- An assignment satisfies the cargo-conservation family for a demand
table when it satisfies every `FlowBal_Cargo` constraint. -/
def satisfiesCargo (dem : Dem) (a : Asg) : Prop :=
  ∀ c ∈ cargoCons dem, satisfies a c

instance (dem : Dem) (a : Asg) : Decidable (satisfiesCargo dem a) :=
  inferInstanceAs (Decidable (∀ c ∈ cargoCons dem, satisfies a c))

/-- A one-route demand table used as a concrete evaluation point. -/
def demandOneRoute : Dem :=
  [((Airport.A, Airport.B), fun _ => 2)]

/-- A concrete assignment shipping `demandOneRoute` in full every day and
repositioning the aircraft back empty; feasible at fleet 4. -/
def asgOneRoute : Asg :=
  { x := fun r _ => if r = (Airport.A, Airport.B) then 2 else 0
    y := fun r _ => if r = (Airport.B, Airport.A) then 2 else 0
    I := fun _ _ => 0
    H := fun _ _ => 0 }

/-- The `DEMAND` per-day values as `ℕ` (they are all nonnegative), keyed the
same way; 0 on pairs outside the demand table. -/
def demandX : Airport × Airport → Fin 5 → ℕ
  | (Airport.A, Airport.B) => ![100, 200, 100, 400, 300]
  | (Airport.A, Airport.C) => ![50, 50, 50, 50, 50]
  | (Airport.B, Airport.A) => ![25, 25, 25, 25, 25]
  | (Airport.B, Airport.C) => ![25, 25, 25, 25, 25]
  | (Airport.C, Airport.A) => ![40, 40, 40, 40, 40]
  | (Airport.C, Airport.B) => ![400, 200, 300, 200, 400]
  | _ => fun _ => 0

/-- A concrete assignment shipping the whole default demand on the day it
arrives, with no backlog (it ignores the air/fleet families). -/
def asgShipAll : Asg :=
  { x := demandX, y := fun _ _ => 0, I := fun _ _ => 0, H := fun _ _ => 0 }

/-- Metrics of one evaluation, the keys `experiments.py` reads from the
result dict: `Total Cost`, `Repo Cost`, `Hold Cost`, `Backlog Days`. -/
structure Metrics where
  totalCost : ℤ
  repoCost : ℤ
  holdCost : ℤ
  backlogDays : ℤ
  deriving Repr

/-- The SolverAdapter contract: exactly one of Optimal (an assignment and the
reported objective value), Infeasible, Unbounded, or a backend error. -/
inductive SolverOutcome : Type
  | Optimal (a : Asg) (objVal : ℤ)
  | Infeasible
  | Unbounded
  | BackendError

/-- Total backlog-days: the sum of backlog counts over all demand-route-days
(a unit-day measure). -/
def backlog_days (dem : Dem) (a : Asg) : ℤ :=
  (dem.map fun rd => ((List.finRange 5).map fun t => (a.H rd.1 t : ℤ)).sum).sum

/-- Modelled from the spec: the ResultExtractor turns an Optimal assignment
into the metrics dict — total cost is the solver's reported objective value,
repositioning cost re-evaluates `obj_repo`, holding cost `obj_hold`, and
backlog-days sums the backlog variables.  (`solver.py` computes these same
quantities at lines 146-157 for printing; the dict-returning extraction lives
in the missing `solve_cargo_operations`.) -/
def extractMetrics (dem : Dem) (a : Asg) (objVal : ℤ) : Metrics :=
  { totalCost := objVal
    repoCost := obj_repo a
    holdCost := obj_hold dem a
    backlogDays := backlog_days dem a }

/-- Modelled from the spec: `DEFAULT_DEMAND`, imported by `experiments.py`
from `solver`, is the built-in demand table (`DEMAND` in `solver.py`). -/
def DEFAULT_DEMAND : Dem := DEMAND

/-- Modelled from the spec: `solve_cargo_operations(fleet_size,
demand_override?, verbose)` is imported by `experiments.py` but absent from
`src/`; per the spec it performs one ModelBuilder→SolverAdapter→
ResultExtractor cycle and returns metrics, or a no-solution signal (falsy)
when the outcome is not Optimal.  The external MIP backend is a parameter. -/
def solve_cargo_operations (fleet_size : ℤ) (demand_override : Option Dem)
    (solver : List LinCons → (Asg → ℤ) → SolverOutcome) : Option Metrics :=
  match solver (buildModel (demand_override.getD DEFAULT_DEMAND) fleet_size)
      (objective (demand_override.getD DEFAULT_DEMAND)) with
  | SolverOutcome.Optimal a objVal =>
      some (extractMetrics (demand_override.getD DEFAULT_DEMAND) a objVal)
  | _ => none

/-- The model build as the interpreter runs it, with the raised-exception
behaviour made explicit: while the `FlowBal_Cargo` loop runs, `x[i,j,t]` is
looked up for every key `(i,j)` of the demand table, and a key outside
`ROUTES` raises `KeyError` (the build has no other input check — negative
demands and non-positive fleet sizes flow through to the solver untouched,
and the cost table is a fixed module constant covering every route). -/
def buildModelE (dem : Dem) (fleet : ℤ) : Except String (List LinCons) :=
  if dem.all fun rd => decide (rd.1 ∈ ROUTES) then Except.ok (buildModel dem fleet)
  else Except.error "KeyError"

/-- A demand table holding a negative demand value (passes the build). -/
def demandNegative : Dem :=
  [((Airport.A, Airport.B), fun _ => -1)]

/-- A demand table whose key `(A, A)` lies outside the route set. -/
def demandBadRoute : Dem :=
  [((Airport.A, Airport.A), fun _ => 1)]

/-- The set of objective values of feasible assignments of a scenario. -/
def FeasCosts (dem : Dem) (fleet : ℤ) : Set ℤ :=
  {c : ℤ | ∃ a : Asg, feasible dem fleet a ∧ objective dem a = c}

/-- `a` with `k` extra aircraft parked on the ground at airport `A` on every
day (`x`, `y`, `H` unchanged). -/
def padAsg (a : Asg) (k : ℕ) : Asg :=
  { a with I := fun i t => if i = Airport.A then a.I i t + k else a.I i t }

/-- `k` aircraft parked at airport `A` all week, nothing else moving. -/
def asgGround (k : ℕ) : Asg :=
  { zeroAsg with I := fun i _ => if i = Airport.A then k else 0 }

/-- A heap of Python list objects: reference → list of day values.  Used to
model aliasing between the default demand table and its deep copies. -/
structure Store where
  heap : ℕ → List ℤ
  next : ℕ

/-- A demand dict as Python holds it: each route maps to a reference to a
(mutable) list in the `Store` heap. -/
abbrev RefTable := List ((Airport × Airport) × ℕ)

/-- `copy.deepcopy`: allocates a fresh list object per route, copying the
contents; the original table's references are untouched. -/
def deepcopy : Store → RefTable → Store × RefTable
  | s, [] => (s, [])
  | s, (r, ref) :: rest =>
    let s1 : Store :=
      { heap := fun n => if n = s.next then s.heap ref else s.heap n
        next := s.next + 1 }
    let p := deepcopy s1 rest
    (p.1, (r, s.next) :: p.2)

/-- Dict lookup: the reference stored under a route key. -/
def dictGet (tbl : RefTable) (r : Airport × Airport) : Option ℕ :=
  (tbl.find? fun rd => decide (rd.1 = r)).map fun rd => rd.2

/-- In-place update of one day cell of a list (`lst[i] = f(lst[i])`). -/
def setDay (l : List ℤ) (i : ℕ) (f : ℤ → ℤ) : List ℤ :=
  l.set i (f (l.getD i 0))

/-- Mutate the list object at `ref` in the heap at day index `i`. -/
def writeHeap (s : Store) (ref : ℕ) (i : ℕ) (f : ℤ → ℤ) : Store :=
  { s with heap := fun n => if n = ref then setDay (s.heap n) i f else s.heap n }

/-- `tbl[r][i] = f(tbl[r][i])`: look the route up in the dict and mutate its
list in place.  (The experiments only touch keys that exist; a missing key
would raise, modelled as a no-op since it cannot occur here.) -/
def mutateRoute (s : Store) (tbl : RefTable) (r : Airport × Airport) (i : ℕ)
    (f : ℤ → ℤ) : Store :=
  match dictGet tbl r with
  | some ref => writeHeap s ref i f
  | none => s

/-- `run_demand_experiments`: deep-copies the default table, shifts 50 units
of `(A, B)` demand from day 0 to day 2 on the copy, and evaluates baseline
and modified scenarios (the solves only read the heap).  Returns the final
store and the modified table. -/
def run_demand_experiments (s : Store) (default : RefTable) : Store × RefTable :=
  (mutateRoute
      (mutateRoute (deepcopy s default).1 (deepcopy s default).2
        (Airport.A, Airport.B) 0 (fun v => v - 50))
      (deepcopy s default).2 (Airport.A, Airport.B) 2 (fun v => v + 50),
    (deepcopy s default).2)

/-- `run_route_balance_experiments`: deep-copies the default table and adds
200 units to `(B, A)` demand on day 0 on the copy. -/
def run_route_balance_experiments (s : Store) (default : RefTable) :
    Store × RefTable :=
  (mutateRoute (deepcopy s default).1 (deepcopy s default).2
      (Airport.B, Airport.A) 0 (fun v => v + 200),
    (deepcopy s default).2)

/-- A concrete store holding the six default demand lists at references
0..5. -/
def storeW : Store :=
  { heap := fun n =>
      [[(100 : ℤ), 200, 100, 400, 300], [50, 50, 50, 50, 50],
       [25, 25, 25, 25, 25], [25, 25, 25, 25, 25],
       [40, 40, 40, 40, 40], [400, 200, 300, 200, 400]].getD n []
    next := 6 }

/-- The default demand dict of `storeW`: route → reference. -/
def defaultTableW : RefTable :=
  [((Airport.A, Airport.B), 0), ((Airport.A, Airport.C), 1),
   ((Airport.B, Airport.A), 2), ((Airport.B, Airport.C), 3),
   ((Airport.C, Airport.A), 4), ((Airport.C, Airport.B), 5)]

/-- `fleet_sizes = range(1150, 1451, 50)` in `run_fleet_experiments`. -/
def fleet_sizes : List ℤ :=
  [1150, 1200, 1250, 1300, 1350, 1400, 1450]

/-- The sweep loop body of `run_fleet_experiments`: for each size in order it
calls the solve, prints a row either way (first component: the reported
(size, metrics-or-no-solution) rows), and appends to `results` only on
success (second component). -/
def sweepLoop (solve : ℤ → Option Metrics) :
    List ℤ → List (ℤ × Option Metrics) × List (ℤ × Metrics)
  | [] => ([], [])
  | fs :: rest =>
    let res := solve fs
    let p := sweepLoop solve rest
    match res with
    | some m => ((fs, some m) :: p.1, (fs, m) :: p.2)
    | none => ((fs, none) :: p.1, p.2)

/-- `run_fleet_experiments`: sweep the fixed fleet-size list. -/
def run_fleet_experiments (solve : ℤ → Option Metrics) :
    List (ℤ × Option Metrics) × List (ℤ × Metrics) :=
  sweepLoop solve fleet_sizes

lemma mem_AIRPORTS (i : Airport) : i ∈ AIRPORTS := by
  cases i <;> decide

lemma sum_filter_ne_eq_erase (i : Airport) (f : Airport → ℤ) :
    ((AIRPORTS.filter fun j => j ≠ i).map f).sum = ∑ j ∈ Finset.univ.erase i, f j := by
  cases i
  · rw [show (AIRPORTS.filter fun j => j ≠ Airport.A) = [Airport.B, Airport.C] from by decide,
      show (Finset.univ.erase Airport.A) = {Airport.B, Airport.C} from by decide,
      Finset.sum_insert (by decide), Finset.sum_singleton]
    simp
  · rw [show (AIRPORTS.filter fun j => j ≠ Airport.B) = [Airport.A, Airport.C] from by decide,
      show (Finset.univ.erase Airport.B) = {Airport.A, Airport.C} from by decide,
      Finset.sum_insert (by decide), Finset.sum_singleton]
    simp
  · rw [show (AIRPORTS.filter fun j => j ≠ Airport.C) = [Airport.A, Airport.B] from by decide,
      show (Finset.univ.erase Airport.C) = {Airport.A, Airport.B} from by decide,
      Finset.sum_insert (by decide), Finset.sum_singleton]
    simp

lemma sum_airports_list (f : Airport → ℤ) :
    (AIRPORTS.map f).sum = ∑ i : Airport, f i := by
  rw [show (Finset.univ : Finset Airport) = {Airport.A, Airport.B, Airport.C} from by decide,
    Finset.sum_insert (by decide), Finset.sum_insert (by decide), Finset.sum_singleton]
  simp [AIRPORTS]

lemma sum_routes_list (f : Airport × Airport → ℤ) :
    (ROUTES.map f).sum = ∑ p ∈ routesFinset, f p := by
  rw [show ROUTES = [(Airport.A, Airport.B), (Airport.A, Airport.C), (Airport.B, Airport.A),
      (Airport.B, Airport.C), (Airport.C, Airport.A), (Airport.C, Airport.B)] from by decide,
    show routesFinset = ({(Airport.A, Airport.B), (Airport.A, Airport.C), (Airport.B, Airport.A),
      (Airport.B, Airport.C), (Airport.C, Airport.A), (Airport.C, Airport.B)} :
        Finset (Airport × Airport)) from by decide,
    Finset.sum_insert (by decide), Finset.sum_insert (by decide), Finset.sum_insert (by decide),
    Finset.sum_insert (by decide), Finset.sum_insert (by decide), Finset.sum_singleton]
  simp [add_assoc]

/-- C1: any assignment satisfying every constraint of the built model obeys
aircraft conservation at every airport and day: loaded plus empty flights
arriving from the cyclically previous day from every other airport, plus the
ground inventory carried from the previous day, equal loaded plus empty
flights departing that day plus the ground inventory remaining that day. -/
theorem air_balance_of_feasible (dem : Dem) (fleet : ℤ) (a : Asg)
    (hf : feasible dem fleet a) (i : Airport) (t : Fin 5) :
    (∑ j ∈ Finset.univ.erase i,
        ((a.x (j, i) (prev t) : ℤ) + (a.y (j, i) (prev t) : ℤ))) + (a.I i (prev t) : ℤ)
      = (∑ j ∈ Finset.univ.erase i,
        ((a.x (i, j) t : ℤ) + (a.y (i, j) t : ℤ))) + (a.I i t : ℤ) := by
  have h := hf _ (List.mem_append_left _ (List.mem_append_left _
    (List.mem_flatMap.mpr ⟨i, mem_AIRPORTS i,
      List.mem_map.mpr ⟨t, List.mem_finRange t, rfl⟩⟩)))
  have h' : ((AIRPORTS.filter fun j => j ≠ i).map
        (fun j => (a.x (j, i) (prev t) : ℤ) + (a.y (j, i) (prev t) : ℤ))).sum
        + (a.I i (prev t) : ℤ)
      = ((AIRPORTS.filter fun j => j ≠ i).map
        (fun j => (a.x (i, j) t : ℤ) + (a.y (i, j) t : ℤ))).sum
        + (a.I i t : ℤ) := h
  rwa [sum_filter_ne_eq_erase, sum_filter_ne_eq_erase] at h'

/-- Witness for C1: the zero assignment is feasible for the empty demand
table and fleet 0, and the conservation identity holds at airport `A`, day 0. -/
theorem air_balance_of_feasible_witness :
    feasible [] 0 zeroAsg ∧
    ((∑ j ∈ Finset.univ.erase Airport.A,
        ((zeroAsg.x (j, Airport.A) (prev 0) : ℤ) + (zeroAsg.y (j, Airport.A) (prev 0) : ℤ)))
        + (zeroAsg.I Airport.A (prev 0) : ℤ)
      = (∑ j ∈ Finset.univ.erase Airport.A,
        ((zeroAsg.x (Airport.A, j) 0 : ℤ) + (zeroAsg.y (Airport.A, j) 0 : ℤ)))
        + (zeroAsg.I Airport.A 0 : ℤ)) :=
  ⟨by decide, air_balance_of_feasible [] 0 zeroAsg (by decide) Airport.A 0⟩

/-- C2: any assignment satisfying every constraint of the built model obeys
cargo conservation for every demand route and day, cyclically wrapped across
the week boundary through `prev`: the backlog at the end of the cyclically
previous day plus the demand arriving that day equals the loaded-flight count
shipped that day plus the backlog at the end of that day. -/
theorem cargo_balance_of_feasible (dem : Dem) (fleet : ℤ) (a : Asg)
    (hf : feasible dem fleet a) (r : Airport × Airport) (d : Fin 5 → ℤ)
    (hrd : (r, d) ∈ dem) (t : Fin 5) :
    (a.H r (prev t) : ℤ) + d t = (a.x r t : ℤ) + (a.H r t : ℤ) :=
  hf _ (List.mem_append_left _ (List.mem_append_right _
    (List.mem_flatMap.mpr ⟨(r, d), hrd, List.mem_map.mpr ⟨t, List.mem_finRange t, rfl⟩⟩)))

/-- Witness for C2: `asgOneRoute` is feasible for `demandOneRoute` at fleet 4,
and cargo conservation holds on its route at day 0. -/
theorem cargo_balance_of_feasible_witness :
    feasible demandOneRoute 4 asgOneRoute ∧
    ((asgOneRoute.H (Airport.A, Airport.B) (prev 0) : ℤ) + (fun _ : Fin 5 => (2 : ℤ)) 0
      = (asgOneRoute.x (Airport.A, Airport.B) 0 : ℤ)
        + (asgOneRoute.H (Airport.A, Airport.B) 0 : ℤ)) :=
  ⟨by decide,
    cargo_balance_of_feasible demandOneRoute 4 asgOneRoute
      (by decide) (Airport.A, Airport.B) (fun _ => 2)
      (by simp [demandOneRoute]) 0⟩

/-- C3: any assignment satisfying every constraint of the built model obeys
fleet conservation on every day: total loaded plus empty flights across all
routes plus total ground inventory across all airports equals the fleet
size exactly. -/
theorem fleet_balance_of_feasible (dem : Dem) (fleet : ℤ) (a : Asg)
    (hf : feasible dem fleet a) (t : Fin 5) :
    (∑ p ∈ routesFinset, ((a.x p t : ℤ) + (a.y p t : ℤ)))
      + (∑ i : Airport, (a.I i t : ℤ)) = fleet := by
  have h := hf _ (List.mem_append_right _
    (List.mem_map.mpr ⟨t, List.mem_finRange t, rfl⟩))
  have h' : (ROUTES.map fun r => (a.x r t : ℤ) + (a.y r t : ℤ)).sum
      + (AIRPORTS.map fun i => (a.I i t : ℤ)).sum = fleet := h
  rwa [sum_routes_list, sum_airports_list] at h'

/-- Witness for C3: one aircraft parked at each airport is feasible for the
empty demand table and fleet 3, and airborne plus grounded equals 3 at day 0. -/
theorem fleet_balance_of_feasible_witness :
    feasible [] 3 { zeroAsg with I := fun _ _ => 1 } ∧
    (∑ p ∈ routesFinset,
        ((({ zeroAsg with I := fun _ _ => 1 } : Asg).x p 0 : ℤ)
          + (({ zeroAsg with I := fun _ _ => 1 } : Asg).y p 0 : ℤ)))
      + (∑ i : Airport, (({ zeroAsg with I := fun _ _ => 1 } : Asg).I i 0 : ℤ)) = 3 :=
  ⟨by decide, fleet_balance_of_feasible [] 3 _ (by decide) 0⟩

lemma sum_finRange (f : Fin 5 → ℤ) :
    ((List.finRange 5).map f).sum = ∑ t : Fin 5, f t :=
  (Fin.sum_univ_def f).symm

lemma sum_prev (f : Fin 5 → ℤ) :
    (∑ t : Fin 5, f (prev t)) = ∑ t : Fin 5, f t := by
  rw [Fin.sum_univ_five, Fin.sum_univ_five]
  show f 4 + f 0 + f 1 + f 2 + f 3 = f 0 + f 1 + f 2 + f 3 + f 4
  ring

/-- C4: the minimized objective is the sum over all route-days of the
repositioning unit cost times the empty-flight count plus the sum over all
demand-route-days of the holding-cost scalar times the backlog count, and
replacing the loaded-flight counts by anything whatsoever leaves it
unchanged — the `x` variables appear in no term. -/
theorem objective_decomposition (dem : Dem) (a : Asg)
    (xnew : Airport × Airport → Fin 5 → ℕ) :
    objective dem a
        = (∑ p ∈ routesFinset, ∑ t : Fin 5, COST_REPO p * (a.y p t : ℤ))
          + (dem.map fun rd => ∑ t : Fin 5, COST_HOLD * (a.H rd.1 t : ℤ)).sum ∧
    objective dem { a with x := xnew } = objective dem a := by
  constructor
  · have h1 : obj_repo a
        = ∑ p ∈ routesFinset, ∑ t : Fin 5, COST_REPO p * (a.y p t : ℤ) := by
      unfold obj_repo
      rw [sum_routes_list]
      simp only [sum_finRange]
    have h2 : obj_hold dem a
        = (dem.map fun rd => ∑ t : Fin 5, COST_HOLD * (a.H rd.1 t : ℤ)).sum := by
      unfold obj_hold
      simp only [sum_finRange]
    show obj_repo a + obj_hold dem a = _
    rw [h1, h2]
  · rfl

/-- C10: any assignment satisfying the cargo-conservation constraints built
from the default demand table ships, on each demand route, exactly the
route's weekly demand (the cyclic backlog terms cancel around the week), and
hence its total shipped units equal the total demand. -/
theorem shipped_equals_demand_of_cargo (a : Asg)
    (hc : satisfiesCargo DEMAND a) :
    (∀ r d, (r, d) ∈ DEMAND → (∑ t : Fin 5, (a.x r t : ℤ)) = ∑ t : Fin 5, d t) ∧
    total_shipped a = total_demand := by
  have hper : ∀ r d, (r, d) ∈ DEMAND →
      (∑ t : Fin 5, (a.x r t : ℤ)) = ∑ t : Fin 5, d t := by
    intro r d hrd
    have hrt : ∀ t : Fin 5, (a.H r (prev t) : ℤ) + d t = (a.x r t : ℤ) + (a.H r t : ℤ) :=
      fun t => hc _ (List.mem_flatMap.mpr ⟨(r, d), hrd,
        List.mem_map.mpr ⟨t, List.mem_finRange t, rfl⟩⟩)
    have h5 : (∑ t : Fin 5, ((a.H r (prev t) : ℤ) + d t))
        = ∑ t : Fin 5, ((a.x r t : ℤ) + (a.H r t : ℤ)) :=
      Finset.sum_congr rfl fun t _ => hrt t
    rw [Finset.sum_add_distrib, Finset.sum_add_distrib,
      sum_prev fun s => (a.H r s : ℤ)] at h5
    linarith
  refine ⟨hper, ?_⟩
  have hAB := hper (Airport.A, Airport.B) ![100, 200, 100, 400, 300] (by simp [DEMAND])
  have hAC := hper (Airport.A, Airport.C) ![50, 50, 50, 50, 50] (by simp [DEMAND])
  have hBA := hper (Airport.B, Airport.A) ![25, 25, 25, 25, 25] (by simp [DEMAND])
  have hBC := hper (Airport.B, Airport.C) ![25, 25, 25, 25, 25] (by simp [DEMAND])
  have hCA := hper (Airport.C, Airport.A) ![40, 40, 40, 40, 40] (by simp [DEMAND])
  have hCB := hper (Airport.C, Airport.B) ![400, 200, 300, 200, 400] (by simp [DEMAND])
  have hship : total_shipped a
      = (∑ t : Fin 5, (a.x (Airport.A, Airport.B) t : ℤ))
        + (∑ t : Fin 5, (a.x (Airport.A, Airport.C) t : ℤ))
        + (∑ t : Fin 5, (a.x (Airport.B, Airport.A) t : ℤ))
        + (∑ t : Fin 5, (a.x (Airport.B, Airport.C) t : ℤ))
        + (∑ t : Fin 5, (a.x (Airport.C, Airport.A) t : ℤ))
        + (∑ t : Fin 5, (a.x (Airport.C, Airport.B) t : ℤ)) := by
    unfold total_shipped
    rw [show ROUTES = [(Airport.A, Airport.B), (Airport.A, Airport.C), (Airport.B, Airport.A),
      (Airport.B, Airport.C), (Airport.C, Airport.A), (Airport.C, Airport.B)] from by decide]
    simp only [List.map_cons, List.map_nil, List.sum_cons, List.sum_nil, sum_finRange]
    ring
  have hdemtot : total_demand = 3300 := by decide
  have e1 : (∑ t : Fin 5, (![100, 200, 100, 400, 300] : Fin 5 → ℤ) t) = 1100 := by decide
  have e2 : (∑ t : Fin 5, (![50, 50, 50, 50, 50] : Fin 5 → ℤ) t) = 250 := by decide
  have e3 : (∑ t : Fin 5, (![25, 25, 25, 25, 25] : Fin 5 → ℤ) t) = 125 := by decide
  have e4 : (∑ t : Fin 5, (![40, 40, 40, 40, 40] : Fin 5 → ℤ) t) = 200 := by decide
  have e5 : (∑ t : Fin 5, (![400, 200, 300, 200, 400] : Fin 5 → ℤ) t) = 1500 := by decide
  rw [hship, hdemtot, hAB, hAC, hBA, hBC, hCA, hCB, e1, e2, e3, e4, e5]
  ring

/-- Witness for C10: the assignment shipping every demand on its arrival day
satisfies the cargo constraints, and its total shipped equals total demand. -/
theorem shipped_equals_demand_of_cargo_witness :
    satisfiesCargo DEMAND asgShipAll ∧ total_shipped asgShipAll = total_demand :=
  ⟨by decide, (shipped_equals_demand_of_cargo asgShipAll (by decide)).2⟩

/-- C5: `solve_cargo_operations`, given a fleet size and an optional demand
override, runs one build→solve→extract cycle: if the backend reports Optimal
it returns the extracted metrics of that assignment, and on Infeasible,
Unbounded or a backend error it returns the no-solution signal `none`. -/
theorem evaluate_cycle (fleet : ℤ) (dov : Option Dem)
    (solver : List LinCons → (Asg → ℤ) → SolverOutcome) :
    (∀ a objVal,
      solver (buildModel (dov.getD DEFAULT_DEMAND) fleet)
          (objective (dov.getD DEFAULT_DEMAND)) = SolverOutcome.Optimal a objVal →
        solve_cargo_operations fleet dov solver
          = some (extractMetrics (dov.getD DEFAULT_DEMAND) a objVal)) ∧
    (solver (buildModel (dov.getD DEFAULT_DEMAND) fleet)
          (objective (dov.getD DEFAULT_DEMAND)) = SolverOutcome.Infeasible →
        solve_cargo_operations fleet dov solver = none) ∧
    (solver (buildModel (dov.getD DEFAULT_DEMAND) fleet)
          (objective (dov.getD DEFAULT_DEMAND)) = SolverOutcome.Unbounded →
        solve_cargo_operations fleet dov solver = none) ∧
    (solver (buildModel (dov.getD DEFAULT_DEMAND) fleet)
          (objective (dov.getD DEFAULT_DEMAND)) = SolverOutcome.BackendError →
        solve_cargo_operations fleet dov solver = none) := by
  refine ⟨fun a objVal h => ?_, fun h => ?_, fun h => ?_, fun h => ?_⟩ <;>
    · unfold solve_cargo_operations
      rw [h]

/-- Witness for C5: with a backend reporting Infeasible the evaluation
signals no solution; with one reporting Optimal it returns the extracted
metrics. -/
theorem evaluate_cycle_witness :
    solve_cargo_operations FLEET_SIZE none (fun _ _ => SolverOutcome.Infeasible) = none ∧
    solve_cargo_operations FLEET_SIZE none (fun _ _ => SolverOutcome.Optimal zeroAsg 0)
      = some (extractMetrics DEFAULT_DEMAND zeroAsg 0) :=
  ⟨(evaluate_cycle FLEET_SIZE none (fun _ _ => SolverOutcome.Infeasible)).2.1 rfl,
    (evaluate_cycle FLEET_SIZE none (fun _ _ => SolverOutcome.Optimal zeroAsg 0)).1
      zeroAsg 0 rfl⟩

/-- Counterexample to C6: no validation precedes the solve — the build
succeeds without raising anything for a fleet size of 0, for a negative
fleet size, and for a demand table holding a negative demand value. -/
theorem no_validation_counterexample :
    buildModelE DEMAND 0 = Except.ok (buildModel DEMAND 0) ∧
    buildModelE DEMAND (-5) = Except.ok (buildModel DEMAND (-5)) ∧
    buildModelE demandNegative FLEET_SIZE
      = Except.ok (buildModel demandNegative FLEET_SIZE) :=
  ⟨rfl, rfl, rfl⟩

/-- C6 as amended: the only pre-solve failure the build can produce is the
key-lookup error raised while the cargo constraints are assembled when a
demand-table key lies outside the route set; whenever every demand key is a
route the build returns the model unchanged, whatever the fleet size or the
demand values (negative included) — nothing is validated or corrected. -/
theorem build_error_iff (dem : Dem) (fleet : ℤ) :
    (buildModelE dem fleet = Except.ok (buildModel dem fleet)
      ↔ ∀ rd ∈ dem, rd.1 ∈ ROUTES) ∧
    (buildModelE dem fleet = Except.error "KeyError"
      ↔ ¬ ∀ rd ∈ dem, rd.1 ∈ ROUTES) := by
  unfold buildModelE
  by_cases h : ∀ rd ∈ dem, rd.1 ∈ ROUTES
  · rw [if_pos (by simpa [List.all_eq_true] using h)]
    exact ⟨⟨fun _ => h, fun _ => rfl⟩,
      ⟨fun hcontra => Except.noConfusion hcontra, fun hcontra => absurd h hcontra⟩⟩
  · rw [if_neg (by simpa [List.all_eq_true] using h)]
    exact ⟨⟨fun hcontra => Except.noConfusion hcontra, fun hforall => absurd hforall h⟩,
      ⟨fun _ => h, fun _ => rfl⟩⟩

/-- C9: the fleet-size sweep evaluates every size in `fleet_sizes`
independently: the reported rows are exactly one `(size, outcome)` pair per
size in order — an Infeasible (`none`) outcome at one size is recorded and
the remaining sizes are still evaluated — while `results` keeps only the
successful ones. -/
theorem sweep_continues (solve : ℤ → Option Metrics) :
    (run_fleet_experiments solve).1 = fleet_sizes.map (fun fs => (fs, solve fs)) ∧
    (run_fleet_experiments solve).2
      = fleet_sizes.filterMap fun fs => (solve fs).map fun m => (fs, m) := by
  have hloop : ∀ l : List ℤ,
      sweepLoop solve l = (l.map fun fs => (fs, solve fs),
        l.filterMap fun fs => (solve fs).map fun m => (fs, m)) := by
    intro l
    induction l with
    | nil => rfl
    | cons fs rest ih =>
      rw [sweepLoop, ih, List.map_cons, List.filterMap_cons]
      cases h : solve fs <;> simp [h]
  unfold run_fleet_experiments
  rw [hloop]
  exact ⟨rfl, rfl⟩

lemma COST_REPO_nonneg (r : Airport × Airport) : 0 ≤ COST_REPO r := by
  rcases r with ⟨i, j⟩
  cases i <;> cases j <;> decide

lemma obj_repo_nonneg (a : Asg) : 0 ≤ obj_repo a := by
  unfold obj_repo
  apply List.sum_nonneg
  intro v hv
  rcases List.mem_map.mp hv with ⟨r, _, rfl⟩
  apply List.sum_nonneg
  intro w hw
  rcases List.mem_map.mp hw with ⟨t, _, rfl⟩
  exact mul_nonneg (COST_REPO_nonneg r) (Int.natCast_nonneg _)

lemma obj_hold_nonneg (dem : Dem) (a : Asg) : 0 ≤ obj_hold dem a := by
  unfold obj_hold
  apply List.sum_nonneg
  intro v hv
  rcases List.mem_map.mp hv with ⟨rd, _, rfl⟩
  apply List.sum_nonneg
  intro w hw
  rcases List.mem_map.mp hw with ⟨t, _, rfl⟩
  exact mul_nonneg (by decide) (Int.natCast_nonneg _)

lemma objective_nonneg (dem : Dem) (a : Asg) : 0 ≤ objective dem a :=
  add_nonneg (obj_repo_nonneg a) (obj_hold_nonneg dem a)

lemma feasible_pad (dem : Dem) (fleet : ℤ) (a : Asg) (k : ℕ)
    (hf : feasible dem fleet a) : feasible dem (fleet + (k : ℤ)) (padAsg a k) := by
  intro c hc
  rcases List.mem_append.mp hc with hc' | hfleet
  · rcases List.mem_append.mp hc' with hair | hcargo
    · rcases List.mem_flatMap.mp hair with ⟨i, hi, hmap⟩
      rcases List.mem_map.mp hmap with ⟨t, ht, rfl⟩
      have h' : ((AIRPORTS.filter fun j => j ≠ i).map
            (fun j => (a.x (j, i) (prev t) : ℤ) + (a.y (j, i) (prev t) : ℤ))).sum
            + (a.I i (prev t) : ℤ)
          = ((AIRPORTS.filter fun j => j ≠ i).map
            (fun j => (a.x (i, j) t : ℤ) + (a.y (i, j) t : ℤ))).sum
            + (a.I i t : ℤ) :=
        hf _ (List.mem_append_left _ (List.mem_append_left _
          (List.mem_flatMap.mpr ⟨i, hi, List.mem_map.mpr ⟨t, ht, rfl⟩⟩)))
      show ((AIRPORTS.filter fun j => j ≠ i).map
            (fun j => (a.x (j, i) (prev t) : ℤ) + (a.y (j, i) (prev t) : ℤ))).sum
            + (((if i = Airport.A then a.I i (prev t) + k else a.I i (prev t)) : ℕ) : ℤ)
          = ((AIRPORTS.filter fun j => j ≠ i).map
            (fun j => (a.x (i, j) t : ℤ) + (a.y (i, j) t : ℤ))).sum
            + (((if i = Airport.A then a.I i t + k else a.I i t) : ℕ) : ℤ)
      by_cases hiA : i = Airport.A
      · rw [if_pos hiA, if_pos hiA]
        push_cast
        linarith
      · rw [if_neg hiA, if_neg hiA]
        linarith
    · rcases List.mem_flatMap.mp hcargo with ⟨rd, hrd, hmap⟩
      rcases List.mem_map.mp hmap with ⟨t, ht, rfl⟩
      exact hf _ (List.mem_append_left _ (List.mem_append_right _
        (List.mem_flatMap.mpr ⟨rd, hrd, List.mem_map.mpr ⟨t, ht, rfl⟩⟩)))
  · rcases List.mem_map.mp hfleet with ⟨t, ht, rfl⟩
    have h' : (ROUTES.map fun r => (a.x r t : ℤ) + (a.y r t : ℤ)).sum
        + (AIRPORTS.map fun i => (a.I i t : ℤ)).sum = fleet :=
      hf _ (List.mem_append_right _ (List.mem_map.mpr ⟨t, ht, rfl⟩))
    show (ROUTES.map fun r => (a.x r t : ℤ) + (a.y r t : ℤ)).sum
        + (AIRPORTS.map fun i =>
            (((if i = Airport.A then a.I i t + k else a.I i t) : ℕ) : ℤ)).sum
        = fleet + (k : ℤ)
    have hg : (AIRPORTS.map fun i =>
          (((if i = Airport.A then a.I i t + k else a.I i t) : ℕ) : ℤ)).sum
        = (AIRPORTS.map fun i => (a.I i t : ℤ)).sum + (k : ℤ) := by
      simp [AIRPORTS]
      ring
    rw [hg]
    linarith

lemma objective_pad (dem : Dem) (a : Asg) (k : ℕ) :
    objective dem (padAsg a k) = objective dem a :=
  rfl

/-- C7: holding the demand table fixed, the optimal total cost is weakly
decreasing in the fleet size — for feasible fleet sizes `s1 < s2`, the
infimum of objective values over feasible assignments at `s2` is at most the
one at `s1` (extra aircraft can always sit on the ground at no cost). -/
theorem total_cost_weakly_decreasing (dem : Dem) (s1 s2 : ℤ) (hlt : s1 < s2)
    (h1 : (FeasCosts dem s1).Nonempty) (h2 : (FeasCosts dem s2).Nonempty) :
    sInf (FeasCosts dem s2) ≤ sInf (FeasCosts dem s1) := by
  have hbdd : ∀ s : ℤ, BddBelow (FeasCosts dem s) := by
    intro s
    refine ⟨0, ?_⟩
    rintro c ⟨a, _, rfl⟩
    exact objective_nonneg dem a
  have hmem : sInf (FeasCosts dem s1) ∈ FeasCosts dem s1 :=
    Int.csInf_mem h1 (hbdd s1)
  rcases hmem with ⟨a, hfa, hca⟩
  have hsub : sInf (FeasCosts dem s1) ∈ FeasCosts dem s2 := by
    refine ⟨padAsg a (s2 - s1).toNat, ?_, ?_⟩
    · have hp := feasible_pad dem s1 a (s2 - s1).toNat hfa
      rwa [show s1 + (((s2 - s1).toNat : ℕ) : ℤ) = s2 by omega] at hp
    · rw [objective_pad]
      exact hca
  exact csInf_le (hbdd s2) hsub

/-- Witness for C7: for the empty demand table, fleet sizes 1 and 2 are both
feasible, 1 < 2, and the optimal cost at 2 is at most the one at 1. -/
theorem total_cost_weakly_decreasing_witness :
    (1 : ℤ) < 2 ∧ sInf (FeasCosts [] 2) ≤ sInf (FeasCosts [] 1) :=
  ⟨by decide,
    total_cost_weakly_decreasing [] 1 2 (by decide)
      ⟨objective [] (asgGround 1), asgGround 1, by decide, rfl⟩
      ⟨objective [] (asgGround 2), asgGround 2, by decide, rfl⟩⟩

lemma deepcopy_heap_lt (tbl : RefTable) :
    ∀ (s : Store) (n : ℕ), n < s.next → (deepcopy s tbl).1.heap n = s.heap n := by
  induction tbl with
  | nil =>
    intro s n _
    rfl
  | cons hd rest ih =>
    intro s n hn
    rcases hd with ⟨r, ref⟩
    calc (deepcopy s ((r, ref) :: rest)).1.heap n
        = (deepcopy { heap := fun m => if m = s.next then s.heap ref else s.heap m,
                      next := s.next + 1 } rest).1.heap n := rfl
      _ = if n = s.next then s.heap ref else s.heap n :=
          ih _ n (Nat.lt_succ_of_lt hn)
      _ = s.heap n := if_neg (by omega)

lemma deepcopy_refs_ge (tbl : RefTable) :
    ∀ (s : Store), ∀ rd ∈ (deepcopy s tbl).2, s.next ≤ rd.2 := by
  induction tbl with
  | nil =>
    intro s rd hrd
    simp [deepcopy] at hrd
  | cons hd rest ih =>
    intro s rd hrd
    rcases hd with ⟨r, ref⟩
    have hrd' : rd ∈ (r, s.next) ::
        (deepcopy { heap := fun m => if m = s.next then s.heap ref else s.heap m,
                    next := s.next + 1 } rest).2 := hrd
    rcases List.mem_cons.mp hrd' with rfl | htail
    · exact le_refl _
    · exact le_trans (Nat.le_succ s.next) (ih _ rd htail)

lemma mutateRoute_heap_other (s : Store) (tbl : RefTable) (r : Airport × Airport)
    (i : ℕ) (f : ℤ → ℤ) (n : ℕ) (h : ∀ rd ∈ tbl, rd.2 ≠ n) :
    (mutateRoute s tbl r i f).heap n = s.heap n := by
  unfold mutateRoute
  cases hfind : dictGet tbl r with
  | none => rfl
  | some ref =>
    have hne : ref ≠ n := by
      unfold dictGet at hfind
      rcases Option.map_eq_some'.mp hfind with ⟨rd0, hrd0, hrefeq⟩
      exact hrefeq ▸ h rd0 (List.mem_of_find?_eq_some hrd0)
    show (writeHeap s ref i f).heap n = s.heap n
    unfold writeHeap
    exact if_neg fun hh => hne hh.symm

/-- C8: both demand-modifying comparisons (`run_demand_experiments` and
`run_route_balance_experiments`) mutate only the deep copy: provided every
reference of the shared default table was allocated before the run, the list
object behind every route of the default table is unchanged at every day
index afterwards. -/
theorem defaults_unchanged (s : Store) (default : RefTable)
    (hvalid : ∀ rd ∈ default, rd.2 < s.next)
    (r : Airport × Airport) (ref : ℕ) (hmem : (r, ref) ∈ default) (t : ℕ) :
    ((run_demand_experiments s default).1.heap ref).getD t 0
        = (s.heap ref).getD t 0 ∧
    ((run_route_balance_experiments s default).1.heap ref).getD t 0
        = (s.heap ref).getD t 0 := by
  have href : ref < s.next := hvalid (r, ref) hmem
  have hfresh : ∀ rd ∈ (deepcopy s default).2, rd.2 ≠ ref := by
    intro rd hrd
    have := deepcopy_refs_ge default s rd hrd
    omega
  constructor
  · have h1 : (run_demand_experiments s default).1.heap ref = s.heap ref := by
      show (mutateRoute
          (mutateRoute (deepcopy s default).1 (deepcopy s default).2
            (Airport.A, Airport.B) 0 (fun v => v - 50))
          (deepcopy s default).2 (Airport.A, Airport.B) 2
          (fun v => v + 50)).heap ref = s.heap ref
      rw [mutateRoute_heap_other _ _ _ _ _ _ hfresh,
        mutateRoute_heap_other _ _ _ _ _ _ hfresh,
        deepcopy_heap_lt default s ref href]
    rw [h1]
  · have h2 : (run_route_balance_experiments s default).1.heap ref = s.heap ref := by
      show (mutateRoute (deepcopy s default).1 (deepcopy s default).2
          (Airport.B, Airport.A) 0 (fun v => v + 200)).heap ref = s.heap ref
      rw [mutateRoute_heap_other _ _ _ _ _ _ hfresh,
        deepcopy_heap_lt default s ref href]
    rw [h2]

/-- Witness for C8: on the concrete store holding the default demand lists at
references 0..5, both comparisons leave the `(A, B)` default list unchanged
at day 0. -/
theorem defaults_unchanged_witness :
    ((run_demand_experiments storeW defaultTableW).1.heap 0).getD 0 0
        = (storeW.heap 0).getD 0 0 ∧
    ((run_route_balance_experiments storeW defaultTableW).1.heap 0).getD 0 0
        = (storeW.heap 0).getD 0 0 :=
  defaults_unchanged storeW defaultTableW (by decide) (Airport.A, Airport.B) 0
    (by decide) 0

end CargoOps
